import Mathlib

/-!
Shallow embedding of the NES emulator core (CPU at `src/src/cpu/src/lib.rs`,
PPU at `src/src/src/ppu.rs`, PPU registers at `src/src/src/ppu_registers.rs`),
with theorems settling the specification claims about it.

Machine bytes (`u8`) and words (`u16`) are modelled as `Nat` with explicit
wrap-around (`% 256`, `% 0x10000`) where the Rust code wraps; fallible code
(Rust `panic!`) is modelled with `Option`.
-/

namespace NES

/-- u8 wrapping addition, `a.wrapping_add(b)` for bytes `a`, `b` below 256. -/
def wadd8 (a b : Nat) : Nat := (a + b) % 256

/-- u8 wrapping subtraction, `a.wrapping_sub(b)` for bytes `a`, `b` below 256. -/
def wsub8 (a b : Nat) : Nat := (a + 256 - b % 256) % 256

/-! ## CPU flag masks (`src/src/cpu/src/lib.rs` lines 10-17)

`BREAK2_MASK` is embedded exactly as the source writes it: `0x10`,
the same bit as `BREAK1_MASK`, even though `fetch_break2_bit` reads bit 5. -/

def CARRY_MASK : Nat := 0x01

def ZERO_MASK : Nat := 0x02

def IRQ_MASK : Nat := 0x04

def DECIMAL_MASK : Nat := 0x08

def BREAK1_MASK : Nat := 0x10

def BREAK2_MASK : Nat := 0x10

def OVERFLOW_MASK : Nat := 0x40

def NEGATIVE_MASK : Nat := 0x80

/-- CPU state: registers `A`/`X`/`Y`, program counter `pc`, stack pointer `sp`,
processor status `state`, and the byte-addressed memory seen through `Mem`. -/
structure CPU where
  A : Nat
  X : Nat
  Y : Nat
  pc : Nat
  sp : Nat
  state : Nat
  mem : Nat → Nat

/-- Modelled from the spec: `CPU::mem_read` forwards to the Bus, whose source
(`bus.rs`) is not under `src/`. Spec section 4.3 maps the addresses exercised
here ($0000-$1FFF RAM range: stack page $01xx and program at $0600) straight to
RAM, so memory is modelled as the byte map `mem`. -/
def CPU.mem_read (c : CPU) (addr : Nat) : Nat := c.mem addr

/-- Modelled from the spec: `CPU::mem_write` forwards to the Bus (see
`CPU.mem_read`). -/
def CPU.mem_write (c : CPU) (addr data : Nat) : CPU :=
  { c with mem := fun a => if a = addr then data else c.mem a }

/-- `Mem::mem_read_u16` default implementation: low byte at `pos`, high byte at
`pos + 1`. -/
def CPU.mem_read_u16 (c : CPU) (pos : Nat) : Nat :=
  let lo := c.mem_read pos
  let hi := c.mem_read (pos + 1)
  (hi <<< 8) ||| lo

/-- `CPU::set_state`: set or clear the masked bit (`state |= mask` or
`state &= !mask`, with `!mask` the u8 complement `mask ^^^ 0xFF`). -/
def CPU.set_state (c : CPU) (mask : Nat) (b : Bool) : CPU :=
  if b then { c with state := c.state ||| mask }
  else { c with state := c.state &&& (mask ^^^ 0xFF) }

def CPU.fetch_carry_bit (c : CPU) : Nat := (c.state >>> 0) &&& 1

def CPU.fetch_zero_bit (c : CPU) : Nat := (c.state >>> 1) &&& 1

def CPU.fetch_irq_bit (c : CPU) : Nat := (c.state >>> 2) &&& 1

def CPU.fetch_break1_bit (c : CPU) : Nat := (c.state >>> 4) &&& 1

def CPU.fetch_break2_bit (c : CPU) : Nat := (c.state >>> 5) &&& 1

def CPU.fetch_overflow_bit (c : CPU) : Nat := (c.state >>> 6) &&& 1

def CPU.fetch_negative_bit (c : CPU) : Nat := (c.state >>> 7) &&& 1

/-- `CPU::set_state4reg`: zero flag from `reg == 0`, negative flag from
`reg & NEGATIVE_MASK != 0`. -/
def CPU.set_state4reg (c : CPU) (reg : Nat) : CPU :=
  let c := if reg = 0 then c.set_state ZERO_MASK true else c.set_state ZERO_MASK false
  if reg &&& NEGATIVE_MASK ≠ 0 then c.set_state NEGATIVE_MASK true
  else c.set_state NEGATIVE_MASK false

/-- `CPU::set_reg_A`. -/
def CPU.set_reg_A (c : CPU) (data : Nat) : CPU :=
  let c := { c with A := data }
  c.set_state4reg c.A

/-- `CPU::set_bflag`. -/
def CPU.set_bflag (c : CPU) (five six : Bool) : CPU :=
  (c.set_state BREAK1_MASK five).set_state BREAK2_MASK six

/-- `CPU::set_zero_negative`: the source computes `seventh_bit` as
`(result & 0xFF) == 1` and feeds it to the negative flag. -/
def CPU.set_zero_negative (c : CPU) (result : Nat) : CPU :=
  let seventh_bit := (result &&& 0xFF) == 1
  let c := c.set_state NEGATIVE_MASK seventh_bit
  let is_zero := result == 0
  c.set_state ZERO_MASK is_zero

/-- `CPU::compare`, at the level of the fetched operand `data`: carry from
`data <= compare_with`, then `set_zero_negative(compare_with.wrapping_sub(data))`. -/
def CPU.compare (c : CPU) (data compare_with : Nat) : CPU :=
  let c := c.set_state CARRY_MASK (decide (data ≤ compare_with))
  c.set_zero_negative (wsub8 compare_with data)

/-- `CPU::add_to_register_a`. The overflow branch is embedded exactly as the
source writes it: both arms of the `if` set the flag to `true`. -/
def CPU.add_to_register_a (c : CPU) (data : Nat) : CPU :=
  let sum := c.A + data + (if c.fetch_carry_bit = 1 then 1 else 0)
  let carry := sum > 0xff
  let c := if carry then c.set_state CARRY_MASK true else c.set_state CARRY_MASK false
  let result := sum % 256
  let c :=
    if (data ^^^ result) &&& (result ^^^ c.A) &&& 0x80 ≠ 0 then
      c.set_state OVERFLOW_MASK true
    else
      c.set_state OVERFLOW_MASK true
  c.set_reg_A result

/-- `CPU::stack_push`: write at `$0100 + SP`, then decrement SP (u8 wrap). -/
def CPU.stack_push (c : CPU) (data : Nat) : CPU :=
  let c := c.mem_write (0x0100 + c.sp) data
  { c with sp := wsub8 c.sp 1 }

/-- `CPU::stack_pop`: increment SP (u8 wrap), then read at `$0100 + SP`. -/
def CPU.stack_pop (c : CPU) : Nat × CPU :=
  let c := { c with sp := wadd8 c.sp 1 }
  (c.mem_read (0x0100 + c.sp), c)

/-- Modelled from the spec: opcode sizes come from the decode table in
`opcode.rs`, which is not under `src/` (spec section 4.1: a static table maps
each opcode byte to its size-in-bytes). LDA immediate is 2 bytes; PHA, PLP and
BRK are 1 byte. -/
def opcode_bytes : Nat → Nat
  | 0xa9 => 2
  | _ => 1

/-- Outcome of one iteration of the `run_with_callback` loop: either the loop
continues with the new state, or the BRK arm returned and halted it. -/
inductive StepOut where
  | next (c : CPU)
  | halt (c : CPU)

/-- One iteration of the loop in `CPU::run_with_callback`, for the opcodes the
claims exercise (0x00 BRK, 0xa9 LDA immediate, 0x48 PHA, 0x28 PLP). The fetch
(`fetch_next`) reads the opcode at `pc` and bumps `pc`; after the arm runs, the
loop advances `pc` by `bytes - 1` only when the arm left `pc` untouched. -/
def CPU.step (c0 : CPU) : Option StepOut :=
  let op := c0.mem_read c0.pc
  let c := { c0 with pc := c0.pc + 1 }
  let program_counter_state := c.pc
  let adv := fun (c : CPU) =>
    if program_counter_state = c.pc then { c with pc := c.pc + (opcode_bytes op - 1) }
    else c
  match op with
  | 0x00 => some (.halt c)
  | 0xa9 =>
      let operand := c.mem_read c.pc
      some (.next (adv (c.set_reg_A operand)))
  | 0x48 => some (.next (adv (c.stack_push c.A)))
  | 0x28 =>
      let q := c.stack_pop
      let c := { q.2 with state := q.1 }
      some (.next (adv (c.set_bflag false true)))
  | _ => none

/-- The `run_with_callback` loop with fuel: returns the CPU state at the BRK
return, `none` when fuel runs out or an unmodelled opcode is met. -/
def CPU.run (c : CPU) : Nat → Option CPU
  | 0 => none
  | fuel + 1 =>
      match c.step with
      | some (.halt c) => some c
      | some (.next c) => c.run fuel
      | none => none

/-- Memory image after `CPU::load_program`: the program bytes at $0600, zero
elsewhere. Modelled from the spec for the Bus part (see `CPU.mem_read`). -/
def load_program (prog : List Nat) : Nat → Nat := fun a =>
  if 0x600 ≤ a ∧ a < 0x600 + prog.length then prog.getD (a - 0x600) 0 else 0

/-- CPU at the top of the `run_with_callback` loop after `reset`:
A = X = Y = 0, SP = $FD, P = 0x24, and `pc = 0x0600` as the loop sets. -/
def CPU.start (prog : List Nat) : CPU :=
  { A := 0, X := 0, Y := 0, pc := 0x600, sp := 0xFD, state := 0x24,
    mem := load_program prog }

/-! ## PPU registers (`src/src/src/ppu_registers.rs`) -/

/-- Modelled from the spec: the cartridge module (`cartridge.rs`) is not under
`src/`; spec section 6 gives the mirroring enum as `Horizontal | Vertical`. -/
inductive Mirroring where
  | VERTICAL
  | HORIZONTAL
deriving DecidableEq

/-- `ScrollRegister` ($2005): two scroll bytes and its own latch bit. -/
structure ScrollRegister where
  x : Nat
  y : Nat
  latch : Bool
deriving DecidableEq

/-- `ScrollRegister::update`: first write (latch true) goes to `x`, second to
`y`; the latch toggles on every write. -/
def ScrollRegister.update (r : ScrollRegister) (data : Nat) : ScrollRegister :=
  let r := if r.latch then { r with x := data } else { r with y := data }
  { r with latch := !r.latch }

def ScrollRegister.new : ScrollRegister := { x := 0, y := 0, latch := true }

def ScrollRegister.reset_latch (r : ScrollRegister) : ScrollRegister :=
  { r with latch := true }

/-- `AddrRegister` ($2006): `val.1` is the high byte, `val.2` the low byte. -/
structure AddrRegister where
  val : Nat × Nat
  hi_ptr : Bool
deriving DecidableEq

/-- `AddrRegister::get`: `(hi as u16) << 8 | lo as u16`. -/
def AddrRegister.get (r : AddrRegister) : Nat := (r.val.1 <<< 8) ||| r.val.2

/-- `AddrRegister::set`: `val.0 = (data >> 8) as u8; val.1 = (data & 0xff) as u8`. -/
def AddrRegister.set (r : AddrRegister) (data : Nat) : AddrRegister :=
  { r with val := ((data >>> 8) &&& 0xFF, data &&& 0xFF) }

/-- `AddrRegister::check_mirror`: mirror the address down into `0x0000-0x3FFF`. -/
def AddrRegister.check_mirror (r : AddrRegister) : AddrRegister :=
  if r.get > 0x3fff then r.set (r.get &&& 0x3fff) else r

/-- `AddrRegister::update`: write the high byte when `hi_ptr` is set, else the
low byte; then mirror and toggle `hi_ptr`. -/
def AddrRegister.update (r : AddrRegister) (data : Nat) : AddrRegister :=
  let r := if r.hi_ptr then { r with val := (data, r.val.2) }
           else { r with val := (r.val.1, data) }
  let r := r.check_mirror
  { r with hi_ptr := !r.hi_ptr }

/-- `AddrRegister::increment`: wrapping-add `inc` to the low byte, carry into
the high byte when the low byte wrapped, then mirror. -/
def AddrRegister.increment (r : AddrRegister) (inc : Nat) : AddrRegister :=
  let lo := r.val.2
  let r := { r with val := (r.val.1, wadd8 r.val.2 inc) }
  let r := if lo > r.val.2 then { r with val := (wadd8 r.val.1 1, r.val.2) } else r
  r.check_mirror

def AddrRegister.new : AddrRegister := { val := (0, 0), hi_ptr := true }

def AddrRegister.reset_latch (r : AddrRegister) : AddrRegister :=
  { r with hi_ptr := true }

/-! ## Control and status register bits, as `Nat` bit masks -/

def VRAM_ADD_INCREMENT : Nat := 0x04

def GENERATE_NMI : Nat := 0x80

/-- `ControlRegister::vram_addr_increment`: 1 unless the increment bit is set,
then 32. -/
def vram_addr_increment (bits : Nat) : Nat :=
  if bits &&& VRAM_ADD_INCREMENT = 0 then 1 else 32

/-- Modelled from the spec: `ControlRegister::generate_vblank_nmi` is called by
`ppu.rs` but absent from the `src/` copy of `ppu_registers.rs`; per the spec
(section 3, CTRL: NMI-enable; section 4.2 tick table) it reports the NMI-enable
bit, bit 7 of CTRL. -/
def generate_vblank_nmi (bits : Nat) : Bool := bits &&& GENERATE_NMI != 0

def VBLANK_STARTED : Nat := 0x80

/-- `StatusRegister::set_vblank_status` via the bitflags `set`: insert on true,
remove (`bits &= !flag`) on false. -/
def set_vblank_status (bits : Nat) (status : Bool) : Nat :=
  if status then bits ||| VBLANK_STARTED else bits &&& (VBLANK_STARTED ^^^ 0xFF)

/-- `StatusRegister::reset_vblank_status`. -/
def reset_vblank_status (bits : Nat) : Nat := bits &&& (VBLANK_STARTED ^^^ 0xFF)

/-- `StatusRegister::is_in_vblank`. -/
def is_in_vblank (bits : Nat) : Bool := bits &&& VBLANK_STARTED != 0

/-! ## PPU (`src/src/src/ppu.rs`) -/

def MAX_CYCLE : Nat := 314

def MAX_SCAN_LINE : Nat := 261

/-- PPU state. Byte arrays (`chr_rom`, `palette_table`, `vram`, `oam_data`) are
modelled as byte maps indexed by `Nat`. -/
structure PPU where
  chr_rom : Nat → Nat
  palette_table : Nat → Nat
  vram : Nat → Nat
  oam_data : Nat → Nat
  mirroring : Mirroring
  internal_data_buf : Nat
  clock_cycles : Nat
  scan_lines : Nat
  nmi_irq : Option Nat
  reg_addr : AddrRegister
  reg_ctrl : Nat
  reg_oam_addr : Nat
  reg_mask : Nat
  reg_status : Nat
  reg_scroll : ScrollRegister

/-- `PPU::new`. -/
def PPU.new (chr_rom : Nat → Nat) (mirroring : Mirroring) : PPU :=
  { chr_rom := chr_rom, mirroring := mirroring, vram := fun _ => 0,
    oam_data := fun _ => 0, palette_table := fun _ => 0, internal_data_buf := 0,
    clock_cycles := 0, scan_lines := 0, nmi_irq := none,
    reg_addr := AddrRegister.new, reg_ctrl := 0, reg_oam_addr := 0,
    reg_mask := 0, reg_status := 0, reg_scroll := ScrollRegister.new }

/-- `PPU::new_empty_rom`: 2 KiB of zero CHR, horizontal mirroring. -/
def PPU.new_empty_rom : PPU := PPU.new (fun _ => 0) Mirroring.HORIZONTAL

/-- `PPU::write_to_ppu_addr` ($2006). -/
def PPU.write_to_ppu_addr (p : PPU) (value : Nat) : PPU :=
  { p with reg_addr := p.reg_addr.update value }

/-- `PPU::write_to_scroll` ($2005). -/
def PPU.write_to_scroll (p : PPU) (value : Nat) : PPU :=
  { p with reg_scroll := p.reg_scroll.update value }

/-- `PPU::read_ppu_status` ($2002): snapshot, then reset both latches and the
vblank flag. -/
def PPU.read_ppu_status (p : PPU) : Nat × PPU :=
  (p.reg_status,
   { p with reg_addr := p.reg_addr.reset_latch,
            reg_scroll := p.reg_scroll.reset_latch,
            reg_status := reset_vblank_status p.reg_status })

/-- `PPU::increment_vram_addr`. -/
def PPU.increment_vram_addr (p : PPU) : PPU :=
  { p with reg_addr := p.reg_addr.increment (vram_addr_increment p.reg_ctrl) }

/-- `PPU::mirror_vram_addr`: mirror $3000-$3EFF down, subtract $2000, pick the
nametable page and apply the cartridge mirroring. -/
def PPU.mirror_vram_addr (p : PPU) (addr : Nat) : Nat :=
  let mirrored_vram := addr &&& 0x2FFF
  let vram_index := mirrored_vram - 0x2000
  let name_table := vram_index / 0x400
  if p.mirroring = Mirroring.VERTICAL ∧ (name_table = 2 ∨ name_table = 3) then
    vram_index - 0x800
  else if p.mirroring = Mirroring.HORIZONTAL ∧ name_table = 1 then
    vram_index - 0x400
  else if p.mirroring = Mirroring.HORIZONTAL ∧ name_table = 2 then
    vram_index - 0x400
  else if p.mirroring = Mirroring.HORIZONTAL ∧ name_table = 3 then
    vram_index - 0x800
  else
    vram_index

/-- `PPU::read_data` ($2007): increment the address, then read; CHR and VRAM
reads go through `internal_data_buf`, palette reads are direct. The two
`panic!` arms ($3000-$3EFF and addresses beyond $3FFF) are `none`, and so is
the out-of-bounds panic of the `[u8; 32]` palette indexing when the index
reaches 32 (addresses $3F20-$3FFF in the last arm). -/
def PPU.read_data (p0 : PPU) : Option (Nat × PPU) :=
  let addr := p0.reg_addr.get
  let p := p0.increment_vram_addr
  if addr ≤ 0x1fff then
    some (p.internal_data_buf, { p with internal_data_buf := p.chr_rom addr })
  else if addr ≤ 0x2fff then
    some (p.internal_data_buf,
          { p with internal_data_buf := p.vram (p.mirror_vram_addr addr) })
  else if addr ≤ 0x3eff then
    none
  else if addr = 0x3f10 ∨ addr = 0x3f14 ∨ addr = 0x3f18 ∨ addr = 0x3f1c then
    if addr - 0x10 - 0x3f00 < 32 then
      some (p.palette_table (addr - 0x10 - 0x3f00), p)
    else none
  else if addr ≤ 0x3fff then
    if addr - 0x3f00 < 32 then
      some (p.palette_table (addr - 0x3f00), p)
    else none
  else
    none

/-- `PPU::write_to_data` ($2007): increment the address, then write; writes to
CHR-ROM, $3000-$3EFF, and beyond $3FFF are the `panic!` arms (`none`), as is
the out-of-bounds panic of the `[u8; 32]` palette indexing when the index
reaches 32 (addresses $3F20-$3FFF in the last arm). -/
def PPU.write_to_data (p0 : PPU) (value : Nat) : Option PPU :=
  let addr := p0.reg_addr.get
  let p := p0.increment_vram_addr
  if addr ≤ 0x1fff then
    none
  else if addr ≤ 0x2fff then
    some { p with vram := fun a => if a = p.mirror_vram_addr addr then value
                                   else p.vram a }
  else if addr ≤ 0x3eff then
    none
  else if addr = 0x3f10 ∨ addr = 0x3f14 ∨ addr = 0x3f18 ∨ addr = 0x3f1c then
    if addr - 0x10 - 0x3f00 < 32 then
      some { p with palette_table := fun a => if a = addr - 0x10 - 0x3f00 then value
                                              else p.palette_table a }
    else none
  else if addr ≤ 0x3fff then
    if addr - 0x3f00 < 32 then
      some { p with palette_table := fun a => if a = addr - 0x3f00 then value
                                              else p.palette_table a }
    else none
  else
    none

/-- `PPU::tick`: add the cycles, roll over one scanline at `MAX_CYCLE`; while
on scanline 241, set vblank and latch an NMI only when CTRL has NMI enabled;
past `MAX_SCAN_LINE`, wrap the frame and clear vblank. -/
def PPU.tick (p0 : PPU) (cycles : Nat) : PPU :=
  let p := { p0 with clock_cycles := p0.clock_cycles + cycles }
  let p := if p.clock_cycles ≥ MAX_CYCLE then
             { p with scan_lines := p.scan_lines + 1,
                      clock_cycles := p.clock_cycles - MAX_CYCLE }
           else p
  let p := if p.scan_lines = 241 then
             if generate_vblank_nmi p.reg_ctrl then
               { p with reg_status := set_vblank_status p.reg_status true,
                        nmi_irq := some 1 }
             else p
           else p
  if p.scan_lines > MAX_SCAN_LINE then
    { p with scan_lines := 0, reg_status := reset_vblank_status p.reg_status }
  else p

end NES

namespace NES

/-! ## Arithmetic bridges between the bit-level operations and `%` / `/` -/

theorem lor_hi_lo (h v : Nat) (hv : v < 256) : (h <<< 8) ||| v = h * 256 + v := by
  have e : (256 : Nat) = 2 ^ 8 := by norm_num
  rw [Nat.shiftLeft_eq, e, Nat.mul_comm]
  exact (Nat.mul_add_lt_is_or (e ▸ hv) h).symm

theorem and_255_eq (x : Nat) : x &&& 255 = x % 256 := by
  have e : (255 : Nat) = 2 ^ 8 - 1 := by norm_num
  rw [e, Nat.and_pow_two_sub_one_eq_mod]

theorem and_16383_eq (x : Nat) : x &&& 0x3FFF = x % 0x4000 := by
  have e : (0x3FFF : Nat) = 2 ^ 14 - 1 := by norm_num
  rw [e, Nat.and_pow_two_sub_one_eq_mod]

theorem and_63_eq (x : Nat) : x &&& 0x3F = x % 64 := by
  have e : (0x3F : Nat) = 2 ^ 6 - 1 := by norm_num
  rw [e, Nat.and_pow_two_sub_one_eq_mod]

theorem shr8_eq (x : Nat) : x >>> 8 = x / 256 := by
  rw [Nat.shiftRight_eq_div_pow]

theorem parity_or_even (x m : Nat) (hm : m % 2 = 0) : (x ||| m) % 2 = x % 2 := by
  have h1 : (x ||| m) % 2 = 1 ↔ x % 2 = 1 ∨ m % 2 = 1 := Nat.or_mod_two_eq_one
  omega

theorem parity_or_odd (x m : Nat) (hm : m % 2 = 1) : (x ||| m) % 2 = 1 := by
  have h1 : (x ||| m) % 2 = 1 ↔ x % 2 = 1 ∨ m % 2 = 1 := Nat.or_mod_two_eq_one
  omega

theorem parity_and_odd (x m : Nat) (hm : m % 2 = 1) : (x &&& m) % 2 = x % 2 := by
  have h1 : (x &&& m) % 2 = 1 ↔ x % 2 = 1 ∧ m % 2 = 1 := Nat.and_mod_two_eq_one
  omega

theorem parity_and_even (x m : Nat) (hm : m % 2 = 0) : (x &&& m) % 2 = 0 := by
  have h1 : (x &&& m) % 2 = 1 ↔ x % 2 = 1 ∧ m % 2 = 1 := Nat.and_mod_two_eq_one
  omega

theorem parity_xor_255 (m : Nat) (hm : m % 2 = 0) : (m ^^^ 255) % 2 = 1 := by
  have h1 : (m ^^^ 255) % 2 = 1 ↔ ¬(m % 2 = 1 ↔ (255 : Nat) % 2 = 1) :=
    Nat.xor_mod_two_eq_one
  omega

/-! ## Flag bookkeeping of the CPU helpers -/

theorem set_state_A (c : CPU) (m : Nat) (b : Bool) : (c.set_state m b).A = c.A := by
  unfold CPU.set_state
  split <;> rfl

theorem set_state_parity (c : CPU) (m : Nat) (b : Bool) (hm : m % 2 = 0) :
    (c.set_state m b).state % 2 = c.state % 2 := by
  unfold CPU.set_state
  split
  · exact parity_or_even _ _ hm
  · exact parity_and_odd _ _ (parity_xor_255 _ hm)

theorem set_state_carry_true (c : CPU) :
    (c.set_state CARRY_MASK true).state % 2 = 1 := by
  show (c.state ||| 1) % 2 = 1
  exact parity_or_odd _ _ (by norm_num)

theorem set_state_carry_false (c : CPU) :
    (c.set_state CARRY_MASK false).state % 2 = 0 := by
  show (c.state &&& (1 ^^^ 255)) % 2 = 0
  exact parity_and_even _ _ (by decide)

theorem set_state4reg_parity (c : CPU) (r : Nat) :
    (c.set_state4reg r).state % 2 = c.state % 2 := by
  unfold CPU.set_state4reg
  split <;> split <;>
    rw [set_state_parity _ _ _ (by decide), set_state_parity _ _ _ (by decide)]

theorem set_state4reg_A (c : CPU) (r : Nat) : (c.set_state4reg r).A = c.A := by
  unfold CPU.set_state4reg
  split <;> split <;> rw [set_state_A, set_state_A]

theorem set_reg_A_A (c : CPU) (d : Nat) : (c.set_reg_A d).A = d := by
  unfold CPU.set_reg_A
  rw [set_state4reg_A]

theorem set_reg_A_parity (c : CPU) (d : Nat) :
    (c.set_reg_A d).state % 2 = c.state % 2 := by
  unfold CPU.set_reg_A
  rw [set_state4reg_parity]

theorem fetch_carry_eq (c : CPU) : c.fetch_carry_bit = c.state % 2 := by
  unfold CPU.fetch_carry_bit
  rw [Nat.shiftRight_zero, Nat.and_one_is_mod]

theorem add_A (c : CPU) (data : Nat) :
    (c.add_to_register_a data).A
      = (c.A + data + (if c.fetch_carry_bit = 1 then 1 else 0)) % 256 := by
  simp only [CPU.add_to_register_a]
  rw [set_reg_A_A]

theorem add_parity (c : CPU) (data : Nat) :
    (c.add_to_register_a data).state % 2
      = (if c.A + data + (if c.fetch_carry_bit = 1 then 1 else 0) > 0xff
         then 1 else 0) := by
  simp only [CPU.add_to_register_a]
  rw [set_reg_A_parity, ite_self, set_state_parity _ _ _ (by decide)]
  by_cases hc : c.A + data + (if c.fetch_carry_bit = 1 then 1 else 0) > 0xff
  · simp only [if_pos hc]
    exact set_state_carry_true c
  · simp only [if_neg hc]
    exact set_state_carry_false c

/-! ## Address register bookkeeping -/

theorem addr_get_eq (r : AddrRegister) (h2 : r.val.2 < 256) :
    r.get = r.val.1 * 256 + r.val.2 := by
  unfold AddrRegister.get
  exact lor_hi_lo _ _ h2

theorem check_mirror_spec (r : AddrRegister) (h2 : r.val.2 < 256) :
    r.check_mirror.val.1 = (r.val.1 * 256 + r.val.2) % 0x4000 / 256 ∧
    r.check_mirror.val.2 = (r.val.1 * 256 + r.val.2) % 0x4000 % 256 ∧
    r.check_mirror.hi_ptr = r.hi_ptr := by
  unfold AddrRegister.check_mirror AddrRegister.set AddrRegister.get
  rw [lor_hi_lo _ _ h2]
  split
  · rw [and_16383_eq, shr8_eq, and_255_eq, and_255_eq]
    refine ⟨?_, ?_, rfl⟩ <;> simp <;> omega
  · refine ⟨?_, ?_, rfl⟩ <;> omega

theorem update_hi_spec (r : AddrRegister) (d : Nat) (hd : d < 256)
    (h2 : r.val.2 < 256) (hp : r.hi_ptr = true) :
    (r.update d).val.1 = d % 64 ∧ (r.update d).val.2 = r.val.2 ∧
    (r.update d).hi_ptr = false := by
  simp only [AddrRegister.update, hp, if_true]
  have h := check_mirror_spec { val := (d, r.val.2), hi_ptr := true } h2
  refine ⟨?_, ?_, ?_⟩
  · rw [h.1]
    show (d * 256 + r.val.2) % 0x4000 / 256 = d % 64
    omega
  · rw [h.2.1]
    show (d * 256 + r.val.2) % 0x4000 % 256 = r.val.2
    omega
  · rw [h.2.2]
    rfl

theorem update_lo_spec (r : AddrRegister) (d : Nat) (hd : d < 256)
    (h1 : r.val.1 < 64) (hp : r.hi_ptr = false) :
    (r.update d).val.1 = r.val.1 ∧ (r.update d).val.2 = d ∧
    (r.update d).hi_ptr = true := by
  simp only [AddrRegister.update, hp, Bool.false_eq_true, if_false]
  have h := check_mirror_spec { val := (r.val.1, d), hi_ptr := false } hd
  refine ⟨?_, ?_, ?_⟩
  · rw [h.1]
    show (r.val.1 * 256 + d) % 0x4000 / 256 = r.val.1
    omega
  · rw [h.2.1]
    show (r.val.1 * 256 + d) % 0x4000 % 256 = d
    omega
  · rw [h.2.2]
    rfl

theorem increment_spec (r : AddrRegister) (inc : Nat)
    (h2 : r.val.2 < 256) (hi0 : 0 < inc) (hi1 : inc < 256) :
    (r.increment inc).val.1 * 256 + (r.increment inc).val.2
      = (r.val.1 * 256 + r.val.2 + inc) % 0x4000 ∧
    (r.increment inc).val.2 < 256 ∧
    (r.increment inc).hi_ptr = r.hi_ptr := by
  simp only [AddrRegister.increment, wadd8]
  split
  · have h := check_mirror_spec
      { val := ((r.val.1 + 1) % 256, (r.val.2 + inc) % 256), hi_ptr := r.hi_ptr }
      (Nat.mod_lt _ (by omega))
    refine ⟨?_, ?_, ?_⟩
    · rw [h.1, h.2.1]
      show ((r.val.1 + 1) % 256 * 256 + (r.val.2 + inc) % 256) % 0x4000 / 256 * 256
          + ((r.val.1 + 1) % 256 * 256 + (r.val.2 + inc) % 256) % 0x4000 % 256
          = (r.val.1 * 256 + r.val.2 + inc) % 0x4000
      omega
    · rw [h.2.1]
      show ((r.val.1 + 1) % 256 * 256 + (r.val.2 + inc) % 256) % 0x4000 % 256 < 256
      omega
    · rw [h.2.2]
  · have h := check_mirror_spec
      { val := (r.val.1, (r.val.2 + inc) % 256), hi_ptr := r.hi_ptr }
      (Nat.mod_lt _ (by omega))
    refine ⟨?_, ?_, ?_⟩
    · rw [h.1, h.2.1]
      show (r.val.1 * 256 + (r.val.2 + inc) % 256) % 0x4000 / 256 * 256
          + (r.val.1 * 256 + (r.val.2 + inc) % 256) % 0x4000 % 256
          = (r.val.1 * 256 + r.val.2 + inc) % 0x4000
      omega
    · rw [h.2.1]
      show (r.val.1 * 256 + (r.val.2 + inc) % 256) % 0x4000 % 256 < 256
      omega
    · rw [h.2.2]

theorem vram_addr_increment_cases (bits : Nat) :
    vram_addr_increment bits = 1 ∨ vram_addr_increment bits = 32 := by
  unfold vram_addr_increment
  split
  · exact Or.inl rfl
  · exact Or.inr rfl

theorem increment_get (p : PPU) (h1 : p.reg_addr.val.2 < 256) :
    (p.increment_vram_addr).reg_addr.get
      = (p.reg_addr.get + vram_addr_increment p.reg_ctrl) % 0x4000 ∧
    (p.increment_vram_addr).reg_addr.val.2 < 256 := by
  have hcases := vram_addr_increment_cases p.reg_ctrl
  have hi0 : 0 < vram_addr_increment p.reg_ctrl := by omega
  have hi1 : vram_addr_increment p.reg_ctrl < 256 := by omega
  have hspec := increment_spec p.reg_addr (vram_addr_increment p.reg_ctrl) h1 hi0 hi1
  constructor
  · show (p.reg_addr.increment (vram_addr_increment p.reg_ctrl)).get = _
    rw [addr_get_eq _ hspec.2.1, hspec.1, addr_get_eq p.reg_addr h1]
  · exact hspec.2.1

end NES

namespace NES

/-! ## Claim theorems -/

/-- C1: the claim says that when a tick makes the scanline counter enter
scanline 241 the vblank flag is set regardless of the NMI-enable bit, with a
pending NMI latched iff NMI-enable is set. The code sets the vblank flag only
inside the NMI-enable conditional: entering scanline 241 with CTRL = 0 leaves
vblank clear and latches nothing, while with CTRL bit 7 set both happen. -/
theorem tick_vblank_requires_nmi_enable :
    (let p0 := { PPU.new_empty_rom with scan_lines := 240, clock_cycles := 313 }
     let p1 := p0.tick 1
     p1.scan_lines = 241 ∧ is_in_vblank p1.reg_status = false ∧ p1.nmi_irq = none) ∧
    (let q0 := { PPU.new_empty_rom with
                 scan_lines := 240, clock_cycles := 313, reg_ctrl := 0x80 }
     let q1 := q0.tick 1
     q1.scan_lines = 241 ∧ is_in_vblank q1.reg_status = true ∧
     q1.nmi_irq = some 1) := by
  decide

/-- C2: after `add_to_register_a` (the ADC core), the new A plus 256 times the
new carry flag equals the old A plus the operand plus the old carry flag, for
every 8-bit A and operand and every processor status. -/
theorem adc_sum_carry_identity (c : CPU) (data : Nat)
    (hA : c.A < 256) (hd : data < 256) :
    (c.add_to_register_a data).A + 256 * (c.add_to_register_a data).fetch_carry_bit
      = c.A + data + c.fetch_carry_bit := by
  have h1 := add_A c data
  have h2 := add_parity c data
  have h3 := fetch_carry_eq c
  have h4 := fetch_carry_eq (c.add_to_register_a data)
  rw [h3] at h1 h2
  rw [h4, h3]
  have h5 : c.state % 2 < 2 := Nat.mod_lt _ (by omega)
  by_cases hc : c.state % 2 = 1
  · simp only [if_pos hc] at h1 h2
    by_cases hs : c.A + data + 1 > 0xff
    · simp only [if_pos hs] at h2
      omega
    · simp only [if_neg hs] at h2
      omega
  · simp only [if_neg hc] at h1 h2
    by_cases hs : c.A + data + 0 > 0xff
    · simp only [if_pos hs] at h2
      omega
    · simp only [if_neg hs] at h2
      omega

/-- Witness for C2: the identity at A = 0, operand 5, carry 0. -/
theorem adc_sum_carry_identity_witness :
    (CPU.start []).A < 256 ∧ (5 : Nat) < 256 ∧
    ((CPU.start []).add_to_register_a 5).A
        + 256 * ((CPU.start []).add_to_register_a 5).fetch_carry_bit
      = (CPU.start []).A + 5 + (CPU.start []).fetch_carry_bit :=
  ⟨by decide, by decide, adc_sum_carry_identity (CPU.start []) 5 (by decide) (by decide)⟩

/-- C3: the claim says the overflow flag is cleared after ADC when the operands
do not satisfy the same-sign-differs condition. In the code both branches of
the overflow `if` set V to 1: with A = 0, operand 0, carry 0 the condition
`(M ^ result) & (result ^ A) & 0x80 != 0` is false, yet V reads 1 afterwards. -/
theorem adc_overflow_flag_always_set :
    (((CPU.start []).add_to_register_a 0).fetch_overflow_bit = 1) ∧
    ((0 ^^^ 0) &&& (0 ^^^ 0) &&& 0x80 = 0) := by
  decide

/-- C4: the claim says the negative flag after CMP/CPX/CPY equals bit 7 of the
8-bit difference. The code sets N iff that difference equals 1: comparing
register 0 with operand 1 gives difference 0xFF, whose bit 7 is 1, yet N reads
0 (carry and zero correctly read 0 here). -/
theorem compare_negative_flag_not_bit7 :
    (((CPU.start []).compare 1 0).fetch_negative_bit = 0) ∧
    ((wsub8 0 1) >>> 7 &&& 1 = 1) ∧
    (((CPU.start []).compare 1 0).fetch_carry_bit = 0) ∧
    (((CPU.start []).compare 1 0).fetch_zero_bit = 0) := by
  decide

/-- Counterexample for C5: running `LDA #$05; BRK` from reset leaves SP at $FD
(nothing was pushed, while the claimed BRK pushes three bytes and would leave
$FA) and ends with PC = $0603, one past the BRK opcode, not the value 0 held at
the $FFFE vector. -/
theorem brk_does_not_push_or_vector :
    ((CPU.start [0xa9, 0x05, 0x00]).run 10).map
        (fun d => (d.A, d.sp, d.pc, d.mem_read_u16 0xFFFE))
      = some (5, 0xFD, 0x603, 0) ∧ (0x603 : Nat) ≠ 0 := by
  decide

/-- C5 amended: executing BRK halts the run loop at once, pushing nothing,
changing no flag and leaving PC one past the BRK opcode instead of loading it
from $FFFE; in particular `LDA #$05; BRK` ends with A = 5, Z = 0, N = 0, SP
still $FD and PC = $0603. -/
theorem brk_halts_loop (c : CPU) (h : c.mem_read c.pc = 0x00) :
    c.step = some (StepOut.halt { c with pc := c.pc + 1 }) ∧
    ((CPU.start [0xa9, 0x05, 0x00]).run 10).map
        (fun d => (d.A, d.fetch_zero_bit, d.fetch_negative_bit, d.sp, d.pc))
      = some (5, 0, 0, 0xFD, 0x603) := by
  constructor
  · simp only [CPU.step, CPU.mem_read] at h ⊢
    rw [h]
  · decide

/-- Witness for C5: `brk_halts_loop` at a program that is a single BRK. -/
theorem brk_halts_loop_witness :
    ((CPU.start [0x00]).mem_read (CPU.start [0x00]).pc = 0x00) ∧
    ((CPU.start [0x00]).step
        = some (StepOut.halt { CPU.start [0x00] with pc := (CPU.start [0x00]).pc + 1 }) ∧
     ((CPU.start [0xa9, 0x05, 0x00]).run 10).map
         (fun d => (d.A, d.fetch_zero_bit, d.fetch_negative_bit, d.sp, d.pc))
       = some (5, 0, 0, 0xFD, 0x603)) :=
  ⟨by decide, brk_halts_loop (CPU.start [0x00]) (by decide)⟩

/-- C6: the claim says bit 5 of P reads 1 in every state reachable from reset.
Because `BREAK2_MASK` is 0x10 (bit 4, the same as `BREAK1_MASK`), PLP never
forces bit 5: running `PHA; PLP; BRK` from reset pops P = 0 from the stack,
`set_bflag` only sets bit 4, and the final P is 0x10 with bit 5 reading 0. -/
theorem plp_reads_back_bit5_clear :
    ((CPU.start [0x48, 0x28, 0x00]).run 10).map
        (fun d => (d.state, d.fetch_break2_bit))
      = some (0x10, 0) := by
  decide

/-- C7: the claim says $2005 and $2006 share one write latch. In the code each
register owns its latch: writing $21 to $2006 flips `hi_ptr` to false but
leaves the scroll latch true, so a following $2005 write is still treated as
the first of its pair (it lands in `x`, `y` stays 0) and leaves `hi_ptr`
untouched; reading $2002 does reset both bits. -/
theorem scroll_addr_latches_independent :
    (let p1 := PPU.new_empty_rom.write_to_ppu_addr 0x21
     p1.reg_scroll.latch = true ∧ p1.reg_addr.hi_ptr = false ∧
     (p1.write_to_scroll 0x33).reg_scroll.x = 0x33 ∧
     (p1.write_to_scroll 0x33).reg_scroll.y = 0 ∧
     (p1.write_to_scroll 0x33).reg_addr.hi_ptr = false ∧
     (p1.read_ppu_status).2.reg_addr.hi_ptr = true ∧
     (p1.read_ppu_status).2.reg_scroll.latch = true) := by
  decide

/-- C8: writing `hi` then `lo` to the $2006 ADDR register, starting from any
state whose latch expects the high byte, leaves the internal address equal to
`((hi & 0x3F) << 8) | lo`. -/
theorem addr_register_two_writes (r : AddrRegister) (hi lo : Nat)
    (hhi : hi < 256) (hlo : lo < 256) (h2 : r.val.2 < 256) (hp : r.hi_ptr = true) :
    ((r.update hi).update lo).get = ((hi &&& 0x3F) <<< 8) ||| lo := by
  obtain ⟨e1, e2, e3⟩ := update_hi_spec r hi hhi h2 hp
  obtain ⟨f1, f2, f3⟩ := update_lo_spec (r.update hi) lo hlo (by omega) e3
  rw [addr_get_eq _ (by omega), f1, f2, e1, lor_hi_lo _ _ hlo, and_63_eq]

/-- Witness for C8: writing $66 then $77 to a fresh ADDR register. -/
theorem addr_register_two_writes_witness :
    ((0x66 : Nat) < 256) ∧ ((0x77 : Nat) < 256) ∧
    (AddrRegister.new.val.2 < 256) ∧ (AddrRegister.new.hi_ptr = true) ∧
    ((AddrRegister.new.update 0x66).update 0x77).get
      = ((0x66 &&& 0x3F) <<< 8) ||| 0x77 :=
  ⟨by decide, by decide, by decide, by decide,
   addr_register_two_writes AddrRegister.new 0x66 0x77
     (by decide) (by decide) (by decide) (by decide)⟩

/-- Counterexample for C9: the palette region is not read successfully over all
of $3F00-$3FFF. Writing $3F then $20 to $2006 leaves the address at $3F20,
inside the claimed palette region, and the $2007 read is the out-of-bounds
panic on the 32-byte palette array (index 32), not a returned palette byte. -/
theorem read_data_palette_out_of_bounds :
    ((PPU.new_empty_rom.write_to_ppu_addr 0x3f).write_to_ppu_addr
        0x20).reg_addr.get = 0x3f20 ∧
    0x3f00 ≤ ((PPU.new_empty_rom.write_to_ppu_addr 0x3f).write_to_ppu_addr
        0x20).reg_addr.get ∧
    ((PPU.new_empty_rom.write_to_ppu_addr 0x3f).write_to_ppu_addr
        0x20).reg_addr.get ≤ 0x3fff ∧
    ((PPU.new_empty_rom.write_to_ppu_addr 0x3f).write_to_ppu_addr
        0x20).read_data = none :=
  ⟨by decide, by decide, by decide, rfl⟩

/-- C9 amended: a $2007 read with the address in CHR-ROM ($0000-$1FFF) or
nametable VRAM ($2000-$2FFF) returns the current read buffer and latches the
byte at the addressed location into the buffer; a palette read returns the
palette byte directly (through the $3F10/14/18/1C aliases) with the buffer
unchanged only while the index fits the 32-byte table, that is for addresses
$3F00-$3F1F, while a read at $3F20-$3FFF is the out-of-bounds panic on the
palette array; in every successful case the address is incremented by the
CTRL-selected step, modulo the 14-bit range. -/
theorem read_data_buffering (p : PPU) (h1 : p.reg_addr.val.2 < 256) :
    (p.reg_addr.get ≤ 0x1fff →
      ∃ q, p.read_data = some (p.internal_data_buf, q) ∧
        q.internal_data_buf = p.chr_rom p.reg_addr.get ∧
        q.reg_addr.get
          = (p.reg_addr.get + vram_addr_increment p.reg_ctrl) % 0x4000) ∧
    (0x2000 ≤ p.reg_addr.get → p.reg_addr.get ≤ 0x2fff →
      ∃ q, p.read_data = some (p.internal_data_buf, q) ∧
        q.internal_data_buf = p.vram (p.mirror_vram_addr p.reg_addr.get) ∧
        q.reg_addr.get
          = (p.reg_addr.get + vram_addr_increment p.reg_ctrl) % 0x4000) ∧
    (0x3f00 ≤ p.reg_addr.get → p.reg_addr.get ≤ 0x3f1f →
      ∃ q, p.read_data
          = some ((if p.reg_addr.get = 0x3f10 ∨ p.reg_addr.get = 0x3f14 ∨
                      p.reg_addr.get = 0x3f18 ∨ p.reg_addr.get = 0x3f1c then
                     p.palette_table (p.reg_addr.get - 0x10 - 0x3f00)
                   else
                     p.palette_table (p.reg_addr.get - 0x3f00)), q) ∧
        q.internal_data_buf = p.internal_data_buf ∧
        q.reg_addr.get
          = (p.reg_addr.get + vram_addr_increment p.reg_ctrl) % 0x4000) ∧
    (0x3f20 ≤ p.reg_addr.get → p.reg_addr.get ≤ 0x3fff →
      p.read_data = none) := by
  have hget := increment_get p h1
  refine ⟨?_, ?_, ?_, ?_⟩
  · intro h
    refine ⟨{ p.increment_vram_addr with
              internal_data_buf := p.chr_rom p.reg_addr.get }, ?_, rfl, hget.1⟩
    simp only [PPU.read_data]
    rw [if_pos h]
    rfl
  · intro ha hb
    refine ⟨{ p.increment_vram_addr with
              internal_data_buf := p.vram (p.mirror_vram_addr p.reg_addr.get) },
            ?_, rfl, hget.1⟩
    simp only [PPU.read_data]
    rw [if_neg (by omega), if_pos hb]
    rfl
  · intro ha hb
    by_cases halias : p.reg_addr.get = 0x3f10 ∨ p.reg_addr.get = 0x3f14 ∨
        p.reg_addr.get = 0x3f18 ∨ p.reg_addr.get = 0x3f1c
    · refine ⟨p.increment_vram_addr, ?_, rfl, hget.1⟩
      simp only [PPU.read_data]
      rw [if_neg (by omega), if_neg (by omega), if_neg (by omega), if_pos halias,
          if_pos (show p.reg_addr.get - 0x10 - 0x3f00 < 32 by omega),
          if_pos halias]
      rfl
    · refine ⟨p.increment_vram_addr, ?_, rfl, hget.1⟩
      simp only [PPU.read_data]
      rw [if_neg (by omega), if_neg (by omega), if_neg (by omega), if_neg halias,
          if_neg halias, if_pos (show p.reg_addr.get ≤ 0x3fff by omega),
          if_pos (show p.reg_addr.get - 0x3f00 < 32 by omega)]
      rfl
  · intro ha hb
    simp only [PPU.read_data]
    rw [if_neg (by omega), if_neg (by omega), if_neg (by omega),
        if_neg (show ¬(p.reg_addr.get = 0x3f10 ∨ p.reg_addr.get = 0x3f14 ∨
            p.reg_addr.get = 0x3f18 ∨ p.reg_addr.get = 0x3f1c) by omega),
        if_pos hb, if_neg (show ¬(p.reg_addr.get - 0x3f00 < 32) by omega)]

/-- Witness for C9: the CHR-ROM case on a fresh PPU, whose address is 0. -/
theorem read_data_buffering_witness :
    (PPU.new_empty_rom.reg_addr.val.2 < 256) ∧
    (PPU.new_empty_rom.reg_addr.get ≤ 0x1fff) ∧
    (∃ q, PPU.new_empty_rom.read_data
        = some (PPU.new_empty_rom.internal_data_buf, q) ∧
      q.internal_data_buf
        = PPU.new_empty_rom.chr_rom PPU.new_empty_rom.reg_addr.get ∧
      q.reg_addr.get
        = (PPU.new_empty_rom.reg_addr.get
            + vram_addr_increment PPU.new_empty_rom.reg_ctrl) % 0x4000) :=
  ⟨by decide, by decide,
   (read_data_buffering PPU.new_empty_rom (by decide)).1 (by decide)⟩

/-- C10: for every address in $2000-$2FFF or its $3000-$3EFF mirror image and
both mirroring modes, `mirror_vram_addr` returns an index below 0x800, inside
the 2 KiB VRAM array used by `read_data` and `write_to_data`. -/
theorem mirror_vram_addr_lt_vram_size (p : PPU) (addr : Nat)
    (ha : 0x2000 ≤ addr) (hb : addr ≤ 0x3eff) :
    p.mirror_vram_addr addr < 0x800 := by
  have hm : addr &&& 0x2FFF ≤ 0x2FFF := Nat.and_le_right
  simp only [PPU.mirror_vram_addr]
  generalize hM : addr &&& 0x2FFF = m at *
  cases hc : p.mirroring <;>
    simp only [hc, reduceCtorEq, true_and, false_and, if_false, and_true,
               and_false] <;>
    split_ifs <;> omega

/-- Witness for C10: the nametable address $2405 under horizontal mirroring. -/
theorem mirror_vram_addr_lt_vram_size_witness :
    ((0x2000 : Nat) ≤ 0x2405) ∧ ((0x2405 : Nat) ≤ 0x3eff) ∧
    PPU.new_empty_rom.mirror_vram_addr 0x2405 < 0x800 :=
  ⟨by decide, by decide,
   mirror_vram_addr_lt_vram_size PPU.new_empty_rom 0x2405 (by decide) (by decide)⟩

end NES
